import Mathlib

/-!
Shallow embedding of the Vitalidade voice-control application core:
the device registry and its mutations, fuzzy device lookup, the tool-call
dispatch loop of the live-session `onmessage` handler, the playback
scheduler `playAudioBuffer`, and the session lifecycle handlers
(`connectToGemini`'s synchronous part, `onopen`/`startMicrophone`,
`disconnect`), each translated from the source file.
-/

/-- Character-wise lowercase map, modelling JS `String.prototype.toLowerCase`
on the ASCII device names and queries the program uses. -/
def lowerStr (s : String) : String :=
  String.mk (s.data.map Char.toLower)

/-- `leadsWith needle hay` is true when `hay` starts with `needle`. -/
def leadsWith : List Char → List Char → Bool
  | [], _ => true
  | _ :: _, [] => false
  | a :: as, b :: bs => a == b && leadsWith as bs

/-- `strIncludes hay needle`, modelling JS `hay.includes(needle)`:
true when `needle` occurs contiguously inside `hay`. -/
def strIncludes : List Char → List Char → Bool
  | [], needle => leadsWith needle []
  | h :: t, needle => leadsWith needle (h :: t) || strIncludes t needle

/-- The `DeviceType` enum of `types.ts` as used by the initial data. -/
inductive DeviceType where
  | LIGHT
  | AC
  | BLIND
  | APPLIANCE
deriving DecidableEq, Repr

/-- The `Device` record: id, display name, type, power state, optional
numeric value, room label. -/
structure Device where
  id : String
  name : String
  type : DeviceType
  isOn : Bool
  value : Option Int := none
  room : String
deriving DecidableEq, Repr

/-- The `INITIAL_DEVICES` constant of the source. -/
def INITIAL_DEVICES : List Device :=
  [ ⟨"1", "Luz da Sala", DeviceType.LIGHT, false, some 80, "Sala de Estar"⟩,
    ⟨"2", "Ar Condicionado", DeviceType.AC, true, some 24, "Quarto Principal"⟩,
    ⟨"3", "Persiana", DeviceType.BLIND, false, some 0, "Sala de Estar"⟩,
    ⟨"4", "Luz da Cozinha", DeviceType.LIGHT, true, some 100, "Cozinha"⟩,
    ⟨"5", "Smart TV", DeviceType.APPLIANCE, false, none, "Sala de Estar"⟩,
    ⟨"6", "Luz de Leitura", DeviceType.LIGHT, false, some 50, "Quarto Principal"⟩ ]

/-- `toggleDevice`: functional update applied by `setDevices`, mapping
`d.id === id ? { ...d, isOn: !d.isOn } : d` over the device list. -/
def toggleDevice (id : String) (devs : List Device) : List Device :=
  devs.map (fun d => if d.id = id then { d with isOn := !d.isOn } else d)

/-- `changeDeviceValue`: functional update mapping
`d.id === id ? { ...d, value } : d` over the device list. -/
def changeDeviceValue (id : String) (value : Int) (devs : List Device) : List Device :=
  devs.map (fun d => if d.id = id then { d with value := some value } else d)

/-- Whether a device matches a fuzzy query:
`d.name.toLowerCase().includes(query.toLowerCase())`. -/
def nameMatches (query : String) (d : Device) : Bool :=
  strIncludes (lowerStr d.name).data (lowerStr query).data

/-- Fuzzy lookup as performed inline in the `onmessage` handler:
`devicesRef.current.find(d => d.name.toLowerCase().includes(q.toLowerCase()))`. -/
def findByFuzzyName (query : String) (devs : List Device) : Option Device :=
  devs.find? (nameMatches query)

/-- Argument record of a tool call; the dispatcher reads `deviceName`
always, `action` in the `controlDevice` branch and `value` in the
`setDeviceValue` branch. -/
structure FnArgs where
  deviceName : String
  action : String := ""
  value : Int := 0
deriving DecidableEq, Repr

/-- An inbound function call `{id, name, args}`. -/
structure FunctionCall where
  id : String
  name : String
  args : FnArgs
deriving DecidableEq, Repr

/-- The `result` record `{status, message}` built by the dispatcher. -/
structure FnResult where
  status : String
  message : String
deriving DecidableEq, Repr

/-- One entry pushed onto `functionResponses`: `{id, name, response: {result}}`. -/
structure FunctionResponse where
  id : String
  name : String
  result : FnResult
deriving DecidableEq, Repr

/-- One iteration of the tool-call loop in `onmessage`: branch on the
function name, resolve the device by fuzzy name, apply the mutation and
build the response entry; the default result is
`{status: error, message: Unknown device}`. Returns the response entry
and the updated device list. -/
def dispatchCall (devs : List Device) (fc : FunctionCall) : FunctionResponse × List Device :=
  if fc.name = "controlDevice" then
    match findByFuzzyName fc.args.deviceName devs with
    | some target =>
      (⟨fc.id, fc.name,
        ⟨"ok", target.name ++ " agora está " ++
          (if fc.args.action = "turnOn" then "ligado" else "desligado")⟩⟩,
       toggleDevice target.id devs)
    | none => (⟨fc.id, fc.name, ⟨"error", "Unknown device"⟩⟩, devs)
  else if fc.name = "setDeviceValue" then
    match findByFuzzyName fc.args.deviceName devs with
    | some target =>
      (⟨fc.id, fc.name,
        ⟨"ok", target.name ++ " ajustado para " ++ toString fc.args.value⟩⟩,
       changeDeviceValue target.id fc.args.value devs)
    | none => (⟨fc.id, fc.name, ⟨"error", "Unknown device"⟩⟩, devs)
  else
    (⟨fc.id, fc.name, ⟨"error", "Unknown device"⟩⟩, devs)

/-- The whole `for (const fc of msg.toolCall.functionCalls)` loop: one
response entry per call, device mutations threaded in call order. -/
def processCalls : List Device → List FunctionCall → List FunctionResponse × List Device
  | devs, [] => ([], devs)
  | devs, fc :: rest =>
    ((dispatchCall devs fc).1 :: (processCalls (dispatchCall devs fc).2 rest).1,
     (processCalls (dispatchCall devs fc).2 rest).2)

/-- The single batched outbound message `session.sendToolResponse({functionResponses})`. -/
structure ToolResponseMessage where
  functionResponses : List FunctionResponse
deriving DecidableEq, Repr

/-- The tool-call part of `onmessage`: when the inbound message carries a
`toolCall`, process every call and send exactly one batched
tool-response message; otherwise send nothing. Returns the outbound
messages and the updated device list. -/
def onmessageToolCalls (devs : List Device) (toolCall : Option (List FunctionCall)) :
    List ToolResponseMessage × List Device :=
  match toolCall with
  | none => ([], devs)
  | some calls => ([⟨(processCalls devs calls).1⟩], (processCalls devs calls).2)

/-- `playAudioBuffer` scheduling step on the playback cursor: given the
cursor `nextStart`, the output-clock time `now` and the buffer duration
`d`, the buffer is started at `max now nextStart` and the cursor becomes
that start time plus `d`. Returns `(startAt, new cursor)`. -/
def playAudioBuffer (nextStart now d : ℚ) : ℚ × ℚ :=
  (max now nextStart, max now nextStart + d)

/-- The mutable application state the session lifecycle touches: the
device list, the two connection flags, the status message, the three
resource refs (output audio context, input source node, script
processor node), the playback cursor and the session ref. -/
structure AppState where
  devices : List Device
  isLiveConnected : Bool
  isAudioStreamActive : Bool
  statusMessage : String
  audioContextOpen : Bool
  inputSourceSet : Bool
  processorSet : Bool
  nextStartTime : ℚ
  sessionSet : Bool
deriving DecidableEq, Repr

/-- The state at mount: initial devices, disconnected, all refs null,
cursor 0. -/
def initialState : AppState :=
  { devices := INITIAL_DEVICES
    isLiveConnected := false
    isAudioStreamActive := false
    statusMessage := "Toque no microfone para falar"
    audioContextOpen := false
    inputSourceSet := false
    processorSet := false
    nextStartTime := 0
    sessionSet := false }

/-- `disconnect`: clears both flags, restores the idle status message,
disconnects and nulls the processor and input source refs, closes and
nulls the output audio context, nulls the session ref and resets the
playback cursor to 0. The device list is untouched. -/
def disconnect (s : AppState) : AppState :=
  { s with
    isLiveConnected := false
    isAudioStreamActive := false
    statusMessage := "Toque no microfone para falar"
    processorSet := false
    inputSourceSet := false
    audioContextOpen := false
    sessionSet := false
    nextStartTime := 0 }

/-- The synchronous part of `connectToGemini` before the remote handshake
resolves: sets the connecting status, creates and stores the output
audio context, and stores the session promise ref. -/
def connectStart (s : AppState) : AppState :=
  { s with
    statusMessage := "Conectando..."
    audioContextOpen := true
    sessionSet := true }

/-- `startMicrophone`: when the microphone is acquired (`micOk`), stores
the input source and processor refs and marks the audio stream active;
when acquisition fails, the catch block only logs and changes nothing. -/
def startMicrophone (micOk : Bool) (s : AppState) : AppState :=
  if micOk then
    { s with inputSourceSet := true, processorSet := true, isAudioStreamActive := true }
  else s

/-- The `onopen` callback run when the remote handshake resolves: marks
the session live, sets the listening status and unconditionally calls
`startMicrophone` — there is no check that this connection attempt is
still the active one. -/
def onopen (micOk : Bool) (s : AppState) : AppState :=
  startMicrophone micOk
    { s with isLiveConnected := true, statusMessage := "Ouvindo... Pode falar." }

/-! Helper lemmas. -/

theorem leadsWith_iff (needle hay : List Char) :
    leadsWith needle hay = true ↔ needle <+: hay := by
  induction needle generalizing hay with
  | nil => simp [leadsWith, List.nil_prefix]
  | cons a as ih =>
    cases hay with
    | nil => simp [leadsWith, List.prefix_nil]
    | cons b bs => simp [leadsWith, List.cons_prefix_cons, ih]

theorem strIncludes_iff (hay needle : List Char) :
    strIncludes hay needle = true ↔ needle <:+: hay := by
  induction hay with
  | nil => simp [strIncludes, leadsWith_iff, List.infix_nil, List.prefix_nil]
  | cons c t ih => simp [strIncludes, leadsWith_iff, ih, List.infix_cons_iff]

theorem nameMatches_iff (q : String) (d : Device) :
    nameMatches q d = true ↔ (lowerStr q).data <:+: (lowerStr d.name).data :=
  strIncludes_iff _ _

theorem find?_first_split {α : Type} (p : α → Bool) (l : List α) (a : α)
    (h : l.find? p = some a) :
    p a = true ∧ ∃ l1 l2, l = l1 ++ a :: l2 ∧ ∀ x ∈ l1, ¬ p x = true := by
  induction l with
  | nil => simp [List.find?] at h
  | cons b t ih =>
    by_cases hb : p b = true
    · rw [List.find?_cons_of_pos t hb] at h
      obtain rfl : b = a := by injection h
      exact ⟨hb, [], t, rfl, by simp⟩
    · rw [List.find?_cons_of_neg t hb] at h
      obtain ⟨hp, l1, l2, hl, hall⟩ := ih h
      refine ⟨hp, b :: l1, l2, by rw [hl]; rfl, ?_⟩
      intro x hx
      rcases List.mem_cons.mp hx with rfl | hx
      · exact hb
      · exact hall x hx

theorem dispatchCall_id (devs : List Device) (fc : FunctionCall) :
    (dispatchCall devs fc).1.id = fc.id := by
  unfold dispatchCall
  split
  · split <;> rfl
  · split
    · split <;> rfl
    · rfl

theorem dispatchCall_name (devs : List Device) (fc : FunctionCall) :
    (dispatchCall devs fc).1.name = fc.name := by
  unfold dispatchCall
  split
  · split <;> rfl
  · split
    · split <;> rfl
    · rfl

theorem processCalls_length (calls : List FunctionCall) :
    ∀ devs, (processCalls devs calls).1.length = calls.length := by
  induction calls with
  | nil => intro devs; rfl
  | cons fc rest ih => intro devs; simp [processCalls, ih]

theorem processCalls_ids (calls : List FunctionCall) :
    ∀ devs, (processCalls devs calls).1.map (fun r => r.id) = calls.map (fun c => c.id) := by
  induction calls with
  | nil => intro devs; rfl
  | cons fc rest ih => intro devs; simp [processCalls, ih, dispatchCall_id]

theorem processCalls_names (calls : List FunctionCall) :
    ∀ devs, (processCalls devs calls).1.map (fun r => r.name) = calls.map (fun c => c.name) := by
  induction calls with
  | nil => intro devs; rfl
  | cons fc rest ih => intro devs; simp [processCalls, ih, dispatchCall_name]

/-! Claim theorems. -/

/-- C1 (code bug evidence): the `controlDevice` branch toggles the target's
power instead of setting it to `action == turnOn`. Dispatching
`controlDevice("ar condicionado", "turnOn")` on the initial registry, where
Ar Condicionado is already on, turns the device OFF while the result message
claims it is now on; and dispatching `controlDevice("sala", "turnOn")` twice
does not leave the registry as one dispatch does (the second toggle undoes
the first), so the power-on mutation is not idempotent. -/
theorem controlDevice_toggles_instead_of_setting :
    (dispatchCall INITIAL_DEVICES ⟨"c1", "controlDevice", ⟨"ar condicionado", "turnOn", 0⟩⟩).1.result
      = ⟨"ok", "Ar Condicionado agora está ligado"⟩ ∧
    (dispatchCall INITIAL_DEVICES ⟨"c1", "controlDevice", ⟨"ar condicionado", "turnOn", 0⟩⟩).2.find?
        (fun d => d.id == "2")
      = some ⟨"2", "Ar Condicionado", DeviceType.AC, false, some 24, "Quarto Principal"⟩ ∧
    (dispatchCall (dispatchCall INITIAL_DEVICES ⟨"c1b", "controlDevice", ⟨"sala", "turnOn", 0⟩⟩).2
        ⟨"c1b", "controlDevice", ⟨"sala", "turnOn", 0⟩⟩).2
      ≠ (dispatchCall INITIAL_DEVICES ⟨"c1b", "controlDevice", ⟨"sala", "turnOn", 0⟩⟩).2 := by
  decide

/-- C2 counterexample: on an unresolvable device name the dispatcher's
result message is "Unknown device", not "device not found" as the claim
states. -/
theorem unresolved_message_not_device_not_found :
    (dispatchCall INITIAL_DEVICES ⟨"c2", "setDeviceValue", ⟨"inexistente", "", 50⟩⟩).1.result.status
      = "error" ∧
    (dispatchCall INITIAL_DEVICES ⟨"c2", "setDeviceValue", ⟨"inexistente", "", 50⟩⟩).1.result.message
      ≠ "device not found" ∧
    (dispatchCall INITIAL_DEVICES ⟨"c2", "setDeviceValue", ⟨"inexistente", "", 50⟩⟩).1.result.message
      = "Unknown device" := by
  decide

/-- C2 (amended): for every controlDevice or setDeviceValue call whose
deviceName resolves to no device, the dispatcher produces a result with
status "error" and message exactly "Unknown device", and the device
registry is left completely unchanged by that call. -/
theorem unresolved_call_error_and_no_mutation (devs : List Device) (fc : FunctionCall)
    (hname : fc.name = "controlDevice" ∨ fc.name = "setDeviceValue")
    (hfind : findByFuzzyName fc.args.deviceName devs = none) :
    (dispatchCall devs fc).1 = ⟨fc.id, fc.name, ⟨"error", "Unknown device"⟩⟩ ∧
    (dispatchCall devs fc).2 = devs := by
  rcases hname with h | h <;> simp [dispatchCall, h, hfind]

/-- C2 witness: the amended claim at a concrete unresolvable call. -/
theorem unresolved_call_error_and_no_mutation_witness :
    (dispatchCall INITIAL_DEVICES ⟨"c2w", "controlDevice", ⟨"inexistente", "turnOn", 0⟩⟩).1
      = ⟨"c2w", "controlDevice", ⟨"error", "Unknown device"⟩⟩ ∧
    (dispatchCall INITIAL_DEVICES ⟨"c2w", "controlDevice", ⟨"inexistente", "turnOn", 0⟩⟩).2
      = INITIAL_DEVICES :=
  unresolved_call_error_and_no_mutation INITIAL_DEVICES
    ⟨"c2w", "controlDevice", ⟨"inexistente", "turnOn", 0⟩⟩ (Or.inl rfl) (by decide)

/-- C3 (code bug evidence): `onopen` has no check that its connection
attempt is still the active one. After `connect()` has run its synchronous
part and `disconnect()` is called while the handshake is pending, the
handshake resolving still marks the session live and starts the capture
pipeline: processor and input source are acquired, the audio stream flag
is set, so the stale attempt resurrects resources after the disconnect. -/
theorem stale_handshake_restarts_capture :
    (onopen true (disconnect (connectStart initialState))).processorSet = true ∧
    (onopen true (disconnect (connectStart initialState))).inputSourceSet = true ∧
    (onopen true (disconnect (connectStart initialState))).isAudioStreamActive = true ∧
    (onopen true (disconnect (connectStart initialState))).isLiveConnected = true := by
  decide

/-- C4 (code bug evidence): when microphone acquisition fails, the catch
block of `startMicrophone` only logs. After `connect()` and an `onopen`
whose microphone acquisition fails, the session is still marked live with
the listening status message, the output audio context is still open, and
no error status is set and no teardown to Closed happens; only the absence
of the capture processor (hence of emitted frames) holds. -/
theorem mic_failure_not_surfaced :
    (onopen false (connectStart initialState)).isLiveConnected = true ∧
    (onopen false (connectStart initialState)).statusMessage = "Ouvindo... Pode falar." ∧
    (onopen false (connectStart initialState)).audioContextOpen = true ∧
    (onopen false (connectStart initialState)).processorSet = false ∧
    onopen false (connectStart initialState) ≠ disconnect (connectStart initialState) := by
  decide

/-- C5: with a fresh playback cursor 0, three buffers of durations d1, d2,
d3 arriving at output-clock times t1 ≤ t2 ≤ t3, all earlier than t1 + d1,
are scheduled at exactly t1, t1 + d1 and t1 + d1 + d2: each starts at
max(now, nextStart) and the cursor advances to the start time plus the
buffer's duration, giving back-to-back playback with no gap or overlap. -/
theorem playback_backtoback (t1 t2 t3 d1 d2 d3 : ℚ)
    (ht1 : 0 ≤ t1) (h12 : t1 ≤ t2) (h23 : t2 ≤ t3) (h3 : t3 < t1 + d1) (hd2 : 0 ≤ d2) :
    (playAudioBuffer 0 t1 d1).1 = t1 ∧
    (playAudioBuffer (playAudioBuffer 0 t1 d1).2 t2 d2).1 = t1 + d1 ∧
    (playAudioBuffer (playAudioBuffer (playAudioBuffer 0 t1 d1).2 t2 d2).2 t3 d3).1
      = t1 + d1 + d2 := by
  have m1 : max t1 0 = t1 := max_eq_left ht1
  have m2 : max t2 (t1 + d1) = t1 + d1 := max_eq_right (by linarith)
  have m3 : max t3 (t1 + d1 + d2) = t1 + d1 + d2 := max_eq_right (by linarith)
  refine ⟨?_, ?_, ?_⟩ <;> simp [playAudioBuffer, m1, m2, m3]

/-- C5 witness: concrete arrival times 1 ≤ 2 ≤ 3 < 1 + 10 and durations
10, 5, 7 give start times 1, 11, 16. -/
theorem playback_backtoback_witness :
    (playAudioBuffer 0 1 10).1 = 1 ∧
    (playAudioBuffer (playAudioBuffer 0 1 10).2 2 5).1 = 1 + 10 ∧
    (playAudioBuffer (playAudioBuffer (playAudioBuffer 0 1 10).2 2 5).2 3 7).1
      = 1 + 10 + 5 :=
  playback_backtoback 1 2 3 10 5 7 (by norm_num) (by norm_num) (by norm_num)
    (by norm_num) (by norm_num)

/-- C6: for an inbound message carrying a list of tool calls, exactly one
outbound tool-response message is produced, and it carries exactly one
result entry per call, with ids and names in the same order as the calls. -/
theorem dispatch_batching (devs : List Device) (calls : List FunctionCall) :
    (onmessageToolCalls devs (some calls)).1.length = 1 ∧
    ((onmessageToolCalls devs (some calls)).1.map fun m => m.functionResponses.length)
      = [calls.length] ∧
    ((onmessageToolCalls devs (some calls)).1.map fun m =>
        m.functionResponses.map fun r => r.id)
      = [calls.map fun c => c.id] ∧
    ((onmessageToolCalls devs (some calls)).1.map fun m =>
        m.functionResponses.map fun r => r.name)
      = [calls.map fun c => c.name] := by
  refine ⟨rfl, ?_, ?_, ?_⟩ <;>
    simp [onmessageToolCalls, processCalls_length, processCalls_ids, processCalls_names]

/-- C7: `disconnect` releases the capture pipeline (processor and input
source), releases the output audio clock, resets the playback cursor to 0
and clears the session and flags, leaving the device list untouched; it is
idempotent, and on the initial (Idle) state it is a no-op. -/
theorem disconnect_releases_and_idempotent (s : AppState) :
    (disconnect s).processorSet = false ∧
    (disconnect s).inputSourceSet = false ∧
    (disconnect s).audioContextOpen = false ∧
    (disconnect s).sessionSet = false ∧
    (disconnect s).nextStartTime = 0 ∧
    (disconnect s).isLiveConnected = false ∧
    (disconnect s).isAudioStreamActive = false ∧
    (disconnect s).devices = s.devices ∧
    disconnect (disconnect s) = disconnect s ∧
    disconnect initialState = initialState :=
  ⟨rfl, rfl, rfl, rfl, rfl, rfl, rfl, rfl, rfl, rfl⟩

/-- C8: fuzzy resolution returns a device whose lowercased name contains
the lowercased query as a contiguous substring, and it is the first such
device in registry order (every earlier device does not match); it returns
none exactly when no device's name contains the query. -/
theorem fuzzy_resolution_first_match (q : String) (devs : List Device) :
    (∀ d, findByFuzzyName q devs = some d →
      (lowerStr q).data <:+: (lowerStr d.name).data ∧
      ∃ pre suf, devs = pre ++ d :: suf ∧
        ∀ e ∈ pre, ¬ (lowerStr q).data <:+: (lowerStr e.name).data) ∧
    (findByFuzzyName q devs = none ↔
      ∀ d ∈ devs, ¬ (lowerStr q).data <:+: (lowerStr d.name).data) := by
  constructor
  · intro d hd
    obtain ⟨hp, l1, l2, hl, hall⟩ := find?_first_split (nameMatches q) devs d hd
    refine ⟨(nameMatches_iff q d).mp hp, l1, l2, hl, ?_⟩
    intro e he
    exact (nameMatches_iff q e).not.mp (hall e he)
  · rw [findByFuzzyName, List.find?_eq_none]
    constructor
    · intro h d hd
      exact (nameMatches_iff q d).not.mp (h d hd)
    · intro h d hd
      exact (nameMatches_iff q d).not.mpr (h d hd)

/-- C9: the power mutation changes only the `isOn` field of the targeted
device and the value mutation changes only the `value` field (stored
verbatim, with no clamping); `id`, `name`, `type` and `room` are always
unchanged, and every non-targeted device is unchanged by either mutation. -/
theorem registry_mutation_frame (id : String) (v : Int) (devs : List Device) :
    List.Forall₂ (fun d e =>
      e.id = d.id ∧ e.name = d.name ∧ e.type = d.type ∧ e.room = d.room ∧
      e.value = d.value ∧
      (d.id = id → e.isOn = !d.isOn) ∧ (d.id ≠ id → e = d))
      devs (toggleDevice id devs) ∧
    List.Forall₂ (fun d e =>
      e.id = d.id ∧ e.name = d.name ∧ e.type = d.type ∧ e.room = d.room ∧
      e.isOn = d.isOn ∧
      (d.id = id → e.value = some v) ∧ (d.id ≠ id → e = d))
      devs (changeDeviceValue id v devs) := by
  constructor
  · rw [toggleDevice, List.forall₂_map_right_iff, List.forall₂_same]
    intro d _
    by_cases h : d.id = id <;> simp [h]
  · rw [changeDeviceValue, List.forall₂_map_right_iff, List.forall₂_same]
    intro d _
    by_cases h : d.id = id <;> simp [h]

/-- C10: every dispatched call, including one whose function name is
neither controlDevice nor setDeviceValue, yields exactly one result entry
carrying that call's id and name; an unhandled name keeps the default
result, status "error" with message "Unknown device", and leaves the
registry unchanged; the response list length always equals the number of
received calls. -/
theorem unhandled_call_default_entry (devs : List Device) (calls : List FunctionCall)
    (fc : FunctionCall) :
    (processCalls devs calls).1.length = calls.length ∧
    (dispatchCall devs fc).1.id = fc.id ∧
    (dispatchCall devs fc).1.name = fc.name ∧
    (fc.name ≠ "controlDevice" → fc.name ≠ "setDeviceValue" →
      (dispatchCall devs fc).1 = ⟨fc.id, fc.name, ⟨"error", "Unknown device"⟩⟩ ∧
      (dispatchCall devs fc).2 = devs) := by
  refine ⟨processCalls_length calls devs, dispatchCall_id devs fc, dispatchCall_name devs fc, ?_⟩
  intro h1 h2
  simp [dispatchCall, h1, h2]
